import Mathlib

/-!
Shallow embedding of the sqlParser repository (src/src/lexer/lex.rs,
src/src/parser/parser.rs, src/src/ast/ast.rs) in Lean 4, used to settle the
frozen claims about the natural-language specification.

Modelling conventions:
* The Rust lexer iterates extended grapheme clusters; a grapheme is modelled
  as a Lean `String` (the Rust code inspects `c.chars().next()`, i.e. the
  first code point, for classification, and compares whole clusters for
  equality).  The `lex` entry point therefore takes a `List String`, the
  grapheme segmentation of the query.  For inputs in which every cluster is
  a single code point (all inputs appearing in the claims, ASCII and
  single-code-point emoji alike), `graphemes` below computes it.
* Rust character classes (`is_ascii`, `is_alphabetic`, `is_numeric`,
  `is_ascii_digit`, `is_whitespace`) are embedded numerically over the code
  point.  Under the `is_ascii` conjunction used by the source, the Unicode
  classes coincide with their ASCII restrictions.
* `f64` values are not observed by any claim; `Numeric.Float` carries the
  source text that Rust would hand to `str::parse::<f64>` instead of an IEEE
  value, and the embedding of that parse only decides acceptance.
* `anyhow::Context` wrapping only decorates error messages; errors propagate
  as values, so the embedding returns the underlying `ParseError` unchanged.
* The Rust parser's logging (`log`, `log_debug`, the stray `println!` in
  `match_expression`) performs I/O only and is dropped.
-/

/-- Rust `char::is_ascii`: the code point is at most 0x7F. -/
def char_is_ascii (c : Char) : Bool := c.toNat ≤ 0x7F

/-- Rust `char::is_alphabetic` restricted to ASCII (the source always guards
this with `is_ascii`): an ASCII letter. -/
def char_is_ascii_alpha (c : Char) : Bool :=
  (0x41 ≤ c.toNat && c.toNat ≤ 0x5A) || (0x61 ≤ c.toNat && c.toNat ≤ 0x7A)

/-- Rust `char::is_numeric` restricted to ASCII (the source always guards it
with `is_ascii`), which coincides with `char::is_ascii_digit`: an ASCII
digit. -/
def char_is_ascii_digit (c : Char) : Bool :=
  0x30 ≤ c.toNat && c.toNat ≤ 0x39

/-- Rust `char::is_whitespace`: the Unicode White_Space property, spelled out
over code points. -/
def char_is_whitespace (c : Char) : Bool :=
  (0x09 ≤ c.toNat && c.toNat ≤ 0x0D) || c.toNat = 0x20 || c.toNat = 0x85 ||
  c.toNat = 0xA0 || c.toNat = 0x1680 ||
  (0x2000 ≤ c.toNat && c.toNat ≤ 0x200A) ||
  c.toNat = 0x2028 || c.toNat = 0x2029 || c.toNat = 0x202F ||
  c.toNat = 0x205F || c.toNat = 0x3000

/-- First code point of a grapheme cluster, Rust `c.chars().next()`. -/
def first_char (g : String) : Option Char := g.data.head?

/-- Token vocabulary, from `enum Token` in lex.rs. -/
inductive Token where
  | Select
  | Where
  | From
  | And
  | Or
  | Not
  | Limit
  | Is
  | As
  | Null
  | Order
  | By
  | Asc
  | Desc
  | In
  | True
  | False
  | Star
  | Comma
  | LessThan
  | LessThanEqual
  | GreaterThan
  | GreaterThanEqual
  | Equal
  | NotEqual
  | LeftParenthesis
  | RightParenthesis
  | Semicolon
  | Period
  | Space
  | Plus
  | Minus
  | ForwardSlash
  | Number (text : String)
  | StringToken (text : String)
  | Identifier (text : String)
  | UndefinedTokenType
deriving DecidableEq, Repr

/-- Kind-equality on tokens, from `Token::token_types_match`: literal-bearing
variants compare by variant only, all others by full equality. -/
def Token.token_types_match (t1 t2 : Token) : Bool :=
  match t1, t2 with
  | Token.Number _, Token.Number _ => true
  | Token.StringToken _, Token.StringToken _ => true
  | Token.Identifier _, Token.Identifier _ => true
  | _, _ => t1 = t2

/-- Operator classification, from `Token::is_expression_operator`. -/
def Token.is_expression_operator (t : Token) : Bool :=
  match t with
  | Token.And => true
  | Token.Or => true
  | Token.Not => true
  | Token.Is => true
  | Token.In => true
  | Token.LessThan => true
  | Token.LessThanEqual => true
  | Token.GreaterThan => true
  | Token.GreaterThanEqual => true
  | Token.Equal => true
  | Token.NotEqual => true
  | Token.Plus => true
  | Token.Minus => true
  | Token.Star => true
  | Token.ForwardSlash => true
  | _ => false

/-- Quote flavours, from `enum QuoteType`. -/
inductive QuoteType where
  | Single
  | Double
  | Backtick
deriving DecidableEq

/-- The quote grapheme of each flavour, from `QuoteType::to_string`. -/
def QuoteType.to_string (q : QuoteType) : String :=
  match q with
  | QuoteType.Single => "'"
  | QuoteType.Double => "\""
  | QuoteType.Backtick => "`"

/-- Fallible conversion of a grapheme to a quote flavour, from
`TryFrom<&str> for QuoteType`; the error case is modelled as `none`. -/
def QuoteType.try_from (s : String) : Option QuoteType :=
  if s = "'" then some QuoteType.Single
  else if s = "\"" then some QuoteType.Double
  else if s = "`" then some QuoteType.Backtick
  else none

/-- Rows of the static keyword and symbol tables, from `struct StaticToken`. -/
structure StaticToken where
  token : Token
  text : String

/-- The single active sub-tokenizer, from the five `struct *Tokenizer` types
behind the `Tokenizer` trait object; each case carries its accumulated
grapheme buffer. -/
inductive ActiveTokenizer where
  | QuotedTokenizer (quote_type : QuoteType) (text : List String)
  | KeywordTokenizer (text : List String)
  | SymbolTokenizer (text : List String)
  | NumberTokenizer (text : List String)
  | SpaceTokenizer
deriving DecidableEq

/-- Rust `Vec::<String>::concat`. -/
def text_concat (l : List String) : String := l.foldl (fun a b => a ++ b) ""

/-- ASCII lowercase mapping on strings; the text reaching `match_keyword`
through `lex` is always an ASCII run, on which Rust `str::to_lowercase`
coincides with this. -/
def to_lowercase (s : String) : String := String.mk (s.data.map Char.toLower)

/-- ASCII uppercase mapping on strings, Rust `str::to_uppercase` on ASCII
runs. -/
def to_uppercase (s : String) : String := String.mk (s.data.map Char.toUpper)

/-- Keyword row matching, from `KeywordTokenizer::match_keyword`: the scanned
string must be entirely lowercase or entirely uppercase, and then compare
case-insensitively with the table text. -/
def KeywordTokenizer.match_keyword (token : Token) (ms ss : String) : Option Token :=
  if to_lowercase ss = ss || to_uppercase ss = ss then
    if to_lowercase ms = to_lowercase ss then some token else none
  else none

/-- The fixed keyword table, from `KeywordTokenizer::keywords`. -/
def KeywordTokenizer.keywords : List StaticToken :=
  [ ⟨Token.Select, "select"⟩, ⟨Token.Where, "where"⟩, ⟨Token.From, "from"⟩,
    ⟨Token.And, "and"⟩, ⟨Token.Or, "or"⟩, ⟨Token.Not, "not"⟩,
    ⟨Token.Limit, "limit"⟩, ⟨Token.Is, "is"⟩, ⟨Token.As, "as"⟩,
    ⟨Token.Null, "null"⟩, ⟨Token.Order, "order"⟩, ⟨Token.By, "by"⟩,
    ⟨Token.Asc, "asc"⟩, ⟨Token.Desc, "desc"⟩, ⟨Token.In, "in"⟩,
    ⟨Token.True, "true"⟩, ⟨Token.False, "false"⟩ ]

/-- First keyword row whose `match_keyword` fires, from
`KeywordTokenizer::token_from_string`'s loop over the table. -/
def keyword_scan (table : List StaticToken) (s : String) : Option Token :=
  match table with
  | [] => none
  | k :: rest =>
    match KeywordTokenizer.match_keyword k.token k.text s with
    | some t => some t
    | none => keyword_scan rest s

/-- Keyword lookup, from `KeywordTokenizer::token_from_string`. -/
def KeywordTokenizer.token_from_string (s : String) : Option Token :=
  keyword_scan KeywordTokenizer.keywords s

/-- Symbol row matching, from `SymbolTokenizer::match_symbol`: exact text
equality. -/
def SymbolTokenizer.match_symbol (token : Token) (s1 s2 : String) : Option Token :=
  if s1 = s2 then some token else none

/-- The fixed symbol table, from `SymbolTokenizer::symbols`. -/
def SymbolTokenizer.symbols : List StaticToken :=
  [ ⟨Token.Star, "*"⟩, ⟨Token.Comma, ","⟩, ⟨Token.LessThan, "<"⟩,
    ⟨Token.LessThanEqual, "<="⟩, ⟨Token.GreaterThan, ">"⟩,
    ⟨Token.GreaterThanEqual, ">="⟩, ⟨Token.Equal, "="⟩,
    ⟨Token.NotEqual, "!="⟩, ⟨Token.LeftParenthesis, "("⟩,
    ⟨Token.RightParenthesis, ")"⟩, ⟨Token.Semicolon, ";"⟩,
    ⟨Token.Period, "."⟩, ⟨Token.Plus, "+"⟩, ⟨Token.Minus, "-"⟩,
    ⟨Token.ForwardSlash, "/"⟩ ]

/-- First symbol row whose `match_symbol` fires, from
`SymbolTokenizer::token_from_string`'s loop over the table. -/
def symbol_scan (table : List StaticToken) (s : String) : Option Token :=
  match table with
  | [] => none
  | k :: rest =>
    match SymbolTokenizer.match_symbol k.token k.text s with
    | some t => some t
    | none => symbol_scan rest s

/-- Symbol lookup, from `SymbolTokenizer::token_from_string`. -/
def SymbolTokenizer.token_from_string (s : String) : Option Token :=
  symbol_scan SymbolTokenizer.symbols s

/-- Start predicate of the quoted tokenizer, from
`QuotedTokenizer::is_valid_starting_character`. -/
def QuotedTokenizer.is_valid_starting_character (c : String) : Bool :=
  (QuoteType.try_from c).isSome

/-- Start predicate of the keyword tokenizer, from
`KeywordTokenizer::is_valid_starting_character`. -/
def KeywordTokenizer.is_valid_starting_character (c : String) : Bool :=
  match first_char c with
  | some v => char_is_ascii v && (char_is_ascii_alpha v || c = "_")
  | none => false

/-- Start predicate of the symbol tokenizer, from
`SymbolTokenizer::is_valid_starting_character`: the first code point, as a
string, appears verbatim in the symbol table. -/
def SymbolTokenizer.is_valid_starting_character (c : String) : Bool :=
  match first_char c with
  | some v => SymbolTokenizer.symbols.any (fun k => k.text = Char.toString v)
  | none => false

/-- Start predicate of the number tokenizer, from
`NumberTokenizer::is_valid_starting_character`. -/
def NumberTokenizer.is_valid_starting_character (c : String) : Bool :=
  match first_char c with
  | some t => char_is_ascii t && (char_is_ascii_digit t || c = ".")
  | none => false

/-- Start predicate of the whitespace tokenizer, from
`SpaceTokenizer::is_valid_starting_character`. -/
def SpaceTokenizer.is_valid_starting_character (c : String) : Bool :=
  match first_char c with
  | some t => char_is_whitespace t
  | none => false

/-- One step of the active tokenizer, from the five
`Tokenizer::add_next_character` implementations.  Returns the updated
tokenizer state plus the Rust `(done, consumed)` pair. -/
def add_next_character (tk : ActiveTokenizer) (c : String) :
    ActiveTokenizer × Bool × Bool :=
  match tk with
  | ActiveTokenizer.QuotedTokenizer q text =>
    if text.getLast? = some "\\" && q.to_string = c then
      (ActiveTokenizer.QuotedTokenizer q (text ++ [c]), false, true)
    else if c = q.to_string then
      (ActiveTokenizer.QuotedTokenizer q text, true, true)
    else
      (ActiveTokenizer.QuotedTokenizer q (text ++ [c]), false, true)
  | ActiveTokenizer.KeywordTokenizer text =>
    match first_char c with
    | some v =>
      if char_is_ascii v && (char_is_ascii_alpha v || char_is_ascii_digit v || c = "_") then
        (ActiveTokenizer.KeywordTokenizer (text ++ [c]), false, true)
      else
        (ActiveTokenizer.KeywordTokenizer text, true, false)
    | none => (ActiveTokenizer.KeywordTokenizer text, true, false)
  | ActiveTokenizer.SymbolTokenizer text =>
    if text.length = 1 then
      match text.getLast? with
      | some t =>
        if (t = ">" || t = "<") && c = "=" then
          (ActiveTokenizer.SymbolTokenizer (text ++ [c]), true, true)
        else
          (ActiveTokenizer.SymbolTokenizer text, true, false)
      | none => (ActiveTokenizer.SymbolTokenizer text, true, false)
    else
      (ActiveTokenizer.SymbolTokenizer text, true, false)
  | ActiveTokenizer.NumberTokenizer text =>
    match first_char c with
    | some t =>
      if char_is_ascii t && (char_is_ascii_digit t || c = ".") then
        (ActiveTokenizer.NumberTokenizer (text ++ [c]), false, true)
      else
        (ActiveTokenizer.NumberTokenizer text, true, false)
    | none => (ActiveTokenizer.NumberTokenizer text, false, true)
  | ActiveTokenizer.SpaceTokenizer =>
    match first_char c with
    | some t =>
      if char_is_whitespace t then (ActiveTokenizer.SpaceTokenizer, false, true)
      else (ActiveTokenizer.SpaceTokenizer, true, false)
    | none => (ActiveTokenizer.SpaceTokenizer, false, true)

/-- Finalisation of the active tokenizer into a token, from the five
`Tokenizer::to_token` implementations. -/
def to_token (tk : ActiveTokenizer) : Token :=
  match tk with
  | ActiveTokenizer.QuotedTokenizer q text =>
    match q with
    | QuoteType.Single => Token.StringToken (text_concat text)
    | QuoteType.Double => Token.Identifier (text_concat text)
    | QuoteType.Backtick => Token.Identifier (text_concat text)
  | ActiveTokenizer.KeywordTokenizer text =>
    match KeywordTokenizer.token_from_string (text_concat text) with
    | some t => t
    | none => Token.Identifier (text_concat text)
  | ActiveTokenizer.SymbolTokenizer text =>
    match SymbolTokenizer.token_from_string (text_concat text) with
    | some t => t
    | none => Token.Identifier (text_concat text)
  | ActiveTokenizer.NumberTokenizer text => Token.Number (text_concat text)
  | ActiveTokenizer.SpaceTokenizer => Token.Space

/-- Selection of a fresh sub-tokenizer for a grapheme, from the
if/else-if dispatch chain in `lex`; when no start predicate matches, an
`UndefinedTokenType` token is pushed directly.  `QuotedTokenizer::new` is the
only fallible constructor and fails exactly when its start predicate is
false, so inside the first branch it always succeeds. -/
def lex_dispatch (g : String) (acc : List Token) :
    Option ActiveTokenizer × List Token :=
  if QuotedTokenizer.is_valid_starting_character g then
    ((QuoteType.try_from g).map (fun q => ActiveTokenizer.QuotedTokenizer q []), acc)
  else if KeywordTokenizer.is_valid_starting_character g then
    (some (ActiveTokenizer.KeywordTokenizer [g]), acc)
  else if SymbolTokenizer.is_valid_starting_character g then
    (some (ActiveTokenizer.SymbolTokenizer [g]), acc)
  else if NumberTokenizer.is_valid_starting_character g then
    (some (ActiveTokenizer.NumberTokenizer [g]), acc)
  else if SpaceTokenizer.is_valid_starting_character g then
    (some ActiveTokenizer.SpaceTokenizer, acc)
  else
    (none, acc ++ [Token.UndefinedTokenType])

/-- The grapheme loop of `lex`: feed the active tokenizer when present,
emitting and possibly re-dispatching on completion; at end of input an open
tokenizer is finalised into one last token. -/
def lex_loop : List String → Option ActiveTokenizer → List Token → List Token
  | [], some t, acc => acc ++ [to_token t]
  | [], none, acc => acc
  | g :: rest, some t, acc =>
    let step := add_next_character t g
    if step.2.1 then
      if step.2.2 then
        lex_loop rest none (acc ++ [to_token step.1])
      else
        let next := lex_dispatch g (acc ++ [to_token step.1])
        lex_loop rest next.1 next.2
    else
      lex_loop rest (some step.1) acc
  | g :: rest, none, acc =>
    let next := lex_dispatch g acc
    lex_loop rest next.1 next.2

/-- The tokenizer entry point, from `lex`; the query is given as its grapheme
segmentation. -/
def lex (query : List String) : List Token := lex_loop query none []

/-- Grapheme segmentation for strings in which every extended grapheme
cluster is a single code point (true of every input appearing in the
claims). -/
def graphemes (s : String) : List String := s.data.map Char.toString

example : lex (graphemes "select * from bike;") =
    [Token.Select, Token.Space, Token.Star, Token.Space, Token.From,
     Token.Space, Token.Identifier "bike", Token.Semicolon] := by rfl

example : lex (graphemes ".5") = [Token.Period, Token.Number "5"] := by rfl

example : lex (graphemes "a <= 'x🥵'") =
    [Token.Identifier "a", Token.Space, Token.LessThanEqual, Token.Space,
     Token.StringToken "x🥵"] := by rfl

example : lex (graphemes "Select sElEcT SELECT") =
    [Token.Identifier "Select", Token.Space, Token.Identifier "sElEcT",
     Token.Space, Token.Select] := by rfl

/-- Column references, from `enum Column` in ast.rs. -/
inductive Column where
  | Direct (schema : Option String) (column_name : String)

/-- Numeric literals, from `enum Numeric` in ast.rs; `Float` carries the
source text Rust would parse into an `f64` (no claim observes IEEE float
semantics). -/
inductive Numeric where
  | Float (text : String)
  | Int (v : Int)

/-- Literal values, from `enum Value` in ast.rs. -/
inductive Value where
  | String (s : String)
  | Numeric (n : Numeric)
  | Boolean (b : Bool)
  | Null

mutual

/-- The universal expression node, from `enum Term` in ast.rs. -/
inductive Term where
  | Value (v : Value)
  | Function (f : Function)
  | Operand (op : Operand)
  | Column (c : Column)

/-- Function calls, from `enum Function` in ast.rs. -/
inductive Function where
  | UserDefined (name : String) (terms : List Term)
  | Sum (t : Term)
  | Count (c : CountFunction)

/-- Count-argument shapes, from `enum CountFunction` in ast.rs. -/
inductive CountFunction where
  | Star
  | Term (t : Term)

/-- Binary/unary expression trees, from `enum Operand` in ast.rs. -/
inductive Operand where
  | Term (t : Term)
  | StringConcatenation (l r : Operand)
  | Addition (l r : Operand)
  | Subtraction (l r : Operand)
  | Multiplication (l r : Operand)
  | Division (l r : Operand)
  | UnaryMinus (x : Operand)
  | And (l r : Operand)
  | Or (l r : Operand)
  | Not (x : Operand)
  | IsNull (x : Operand)
  | IsNotNull (x : Operand)
  | Equal (l r : Operand)
  | NotEqual (l r : Operand)
  | LessThan (l r : Operand)
  | GreaterThan (l r : Operand)
  | LessThanOrEqual (l r : Operand)
  | GreaterThanOrEqual (l r : Operand)

end

mutual

/-- Select statements, from `struct SelectStatement` in ast.rs (an inductive
with one constructor, since Lean `mutual` blocks take inductives). -/
inductive SelectStatement where
  | mk (select_expressions : List SelectExpression)
       (from_expression : TableExpression)
       (where_expression : Option Term)

/-- Select-list items, from `enum SelectExpression` in ast.rs. -/
inductive SelectExpression where
  | Star
  | Family (name : String)
  | Expression (expression : Term) (alias_name : Option String)

/-- Row sources, from `enum TableExpression` in ast.rs. -/
inductive TableExpression where
  | Table (schema : Option String) (table : String)
  | Select (select_statement : SelectStatement) (alias_name : Option String)

end

/-- Statements, from `enum Statement` in ast.rs. -/
inductive Statement where
  | Select (s : SelectStatement)

/-- The parse failure taxonomy, from `enum ParseError` in parser.rs.
`OutOfFuel` is an artifact of the fueled embedding of the parser's general
recursion; it is never returned when the fuel bound passed by `Parser.parse`
suffices, and no theorem below relies on it. -/
inductive ParseError where
  | EmptyQueryString
  | InvalidToken (t : Token)
  | InvalidNextToken (expected actual : Token)
  | NoMoreTokens
  | InvalidNumber (s : String)
  | OperandTokenNotImplemented (t : Token)
  | OperandCompactionIssue (s : String)
  | NotImplemented (s : String)
  | OutOfFuel
deriving DecidableEq

/-- Parser state, from `struct Parser` (the `enable_logging` flag only
controls I/O and is dropped). -/
structure Parser where
  tokens : List Token
  token_index : Nat
deriving DecidableEq

/-- Length of the run of `Space` tokens at the head of a token list; used to
embed the skip loop of `read_next_token`. -/
def spaces_run : List Token → Nat
  | Token.Space :: rest => spaces_run rest + 1
  | _ => 0

/-- Cursor advance, from `Parser::read_next_token`: step once, skip any
following `Space` tokens, and report whether tokens remain. -/
def Parser.read_next_token (p : Parser) : Bool × Parser :=
  let i := p.token_index + 1
  let j := i + spaces_run (p.tokens.drop i)
  (j < p.tokens.length, { p with token_index := j })

/-- Non-consuming kind-only lookahead, from `Parser::peek_match_token_types`. -/
def Parser.peek_match_token_types (p : Parser) (expected_tokens : List Token) : Bool :=
  if p.tokens.length < p.token_index + expected_tokens.length then
    false
  else
    (List.range expected_tokens.length).all (fun idx =>
      match expected_tokens.get? idx, p.tokens.get? (p.token_index + idx) with
      | some t, some token => Token.token_types_match t token
      | _, _ => false)

/-- Current token without consuming, from `Parser::next_token`. -/
def Parser.next_token (p : Parser) : Except ParseError Token :=
  match p.tokens.get? p.token_index with
  | some t => Except.ok t
  | none => Except.error ParseError.NoMoreTokens

/-- Exact-token consumption, from `Parser::match_token`. -/
def Parser.match_token (p : Parser) (expected_token : Token) :
    Except ParseError Parser :=
  match p.next_token with
  | Except.error e => Except.error e
  | Except.ok next_token =>
    if expected_token = next_token then Except.ok (p.read_next_token).2
    else Except.error (ParseError.InvalidNextToken expected_token next_token)

/-- Possibly schema-qualified name parsing, from `Parser::match_table_name`
(shared between table and column references). -/
def Parser.match_table_name (p : Parser) :
    Except ParseError ((Option String × String) × Parser) := do
  let has_schema_and_table := p.peek_match_token_types
    [Token.Identifier "", Token.Period, Token.Identifier ""]
  let t ← p.next_token
  match t with
  | Token.Identifier id_name1 => do
    let next_token ← p.next_token
    let p ← p.match_token next_token
    if has_schema_and_table then do
      let p ← p.match_token Token.Period
      let next_token ← p.next_token
      match next_token with
      | Token.Identifier id_name2 => do
        let p ← p.match_token next_token
        pure ((some id_name1, id_name2), p)
      | ut => Except.error (ParseError.InvalidToken ut)
    else
      pure ((none, id_name1), p)
  | ut => Except.error (ParseError.InvalidToken ut)

/-- Numeric precedence of operator tokens, from `Parser::operator_precedence`
(the Rust `i8` values are non-negative, modelled as `Nat`). -/
def Parser.operator_precedence (token : Token) : Nat :=
  match token with
  | Token.Or => 7
  | Token.And => 8
  | Token.Equal => 9
  | Token.NotEqual => 9
  | Token.LessThan => 9
  | Token.LessThanEqual => 9
  | Token.GreaterThan => 9
  | Token.GreaterThanEqual => 9
  | Token.Plus => 10
  | Token.Minus => 10
  | Token.Star => 11
  | Token.ForwardSlash => 11
  | _ => 0

/-- Debug rendering of a token, mirroring the derived Rust `Debug` output
used in the `format!` of `match_expression`'s error branch. -/
def token_repr (t : Token) : String :=
  match t with
  | Token.Number s => "Number(\"" ++ s ++ "\")"
  | Token.StringToken s => "StringToken(\"" ++ s ++ "\")"
  | Token.Identifier s => "Identifier(\"" ++ s ++ "\")"
  | Token.Select => "Select"
  | Token.Where => "Where"
  | Token.From => "From"
  | Token.And => "And"
  | Token.Or => "Or"
  | Token.Not => "Not"
  | Token.Limit => "Limit"
  | Token.Is => "Is"
  | Token.As => "As"
  | Token.Null => "Null"
  | Token.Order => "Order"
  | Token.By => "By"
  | Token.Asc => "Asc"
  | Token.Desc => "Desc"
  | Token.In => "In"
  | Token.True => "True"
  | Token.False => "False"
  | Token.Star => "Star"
  | Token.Comma => "Comma"
  | Token.LessThan => "LessThan"
  | Token.LessThanEqual => "LessThanEqual"
  | Token.GreaterThan => "GreaterThan"
  | Token.GreaterThanEqual => "GreaterThanEqual"
  | Token.Equal => "Equal"
  | Token.NotEqual => "NotEqual"
  | Token.LeftParenthesis => "LeftParenthesis"
  | Token.RightParenthesis => "RightParenthesis"
  | Token.Semicolon => "Semicolon"
  | Token.Period => "Period"
  | Token.Space => "Space"
  | Token.Plus => "Plus"
  | Token.Minus => "Minus"
  | Token.ForwardSlash => "ForwardSlash"
  | Token.UndefinedTokenType => "UndefinedTokenType"

/-- Operator-to-node table, from `Parser::apply_operator_to_terms` (a pure
table; the `&mut self` in Rust is only used for logging). -/
def apply_operator_to_terms (token : Token) (left_operand right_operand : Operand) :
    Except ParseError Operand :=
  if !token.is_expression_operator then
    Except.error (ParseError.InvalidToken token)
  else
    match token with
    | Token.Plus => Except.ok (Operand.Addition left_operand right_operand)
    | Token.Minus => Except.ok (Operand.Subtraction left_operand right_operand)
    | Token.Star => Except.ok (Operand.Multiplication left_operand right_operand)
    | Token.ForwardSlash => Except.ok (Operand.Division left_operand right_operand)
    | Token.Equal => Except.ok (Operand.Equal left_operand right_operand)
    | Token.NotEqual => Except.ok (Operand.NotEqual left_operand right_operand)
    | Token.LessThan => Except.ok (Operand.LessThan left_operand right_operand)
    | Token.LessThanEqual => Except.ok (Operand.LessThanOrEqual left_operand right_operand)
    | Token.GreaterThan => Except.ok (Operand.GreaterThan left_operand right_operand)
    | Token.GreaterThanEqual => Except.ok (Operand.GreaterThanOrEqual left_operand right_operand)
    | Token.Or => Except.ok (Operand.Or left_operand right_operand)
    | Token.And => Except.ok (Operand.And left_operand right_operand)
    | _ => Except.error (ParseError.OperandTokenNotImplemented token)

/-- Loop-continuation test of the expression engine, from
`Parser::expression_continues`. -/
def Parser.expression_continues (p : Parser) : Except ParseError Bool := do
  let t ← p.next_token
  pure (t.is_expression_operator
    || p.peek_match_token_types [Token.Identifier "", Token.LeftParenthesis]
    || p.peek_match_token_types [Token.Identifier ""]
    || p.peek_match_token_types [Token.Number ""])

/-- Rust `str::parse::<i64>`: optional sign, nonempty ASCII digit run, value
within the `i64` range. -/
def parse_i64 (s : String) : Option Int :=
  let core : Option (Bool × List Char) :=
    match s.data with
    | '+' :: rest => some (false, rest)
    | '-' :: rest => some (true, rest)
    | rest => some (false, rest)
  match core with
  | some (neg, ds) =>
    if ds = [] || !ds.all char_is_ascii_digit then none
    else
      let mag : Nat := ds.foldl (fun a c => a * 10 + (c.toNat - 0x30)) 0
      let v : Int := if neg then -(mag : Int) else (mag : Int)
      if -(2 ^ 63) ≤ v && v ≤ 2 ^ 63 - 1 then some v else none
  | none => none

/-- Rust `str::parse::<f64>` acceptance (the value itself is unobserved, see
`Numeric.Float`): optional sign, then either a digit run with an optional
fractional part, or a leading point with a mandatory digit run, with an
optional exponent; or the `inf`/`infinity`/`nan` forms, case-insensitively. -/
def parse_f64_accepts (s : String) : Bool :=
  let body (cs : List Char) : Bool :=
    let lower := cs.map Char.toLower
    if lower = "inf".data || lower = "infinity".data || lower = "nan".data then true
    else
      let mantissa (ms : List Char) : Bool :=
        let intPart := ms.takeWhile char_is_ascii_digit
        let rest1 := ms.dropWhile char_is_ascii_digit
        match rest1 with
        | [] => intPart ≠ []
        | '.' :: frac =>
          let fracDigits := frac.takeWhile char_is_ascii_digit
          frac.dropWhile char_is_ascii_digit = [] &&
            (intPart ≠ [] || fracDigits ≠ [])
        | _ => false
      match lower.splitOn 'e' with
      | [m] => mantissa m
      | [m, e] =>
        let esigned := match e with
          | '+' :: r => r
          | '-' :: r => r
          | r => r
        mantissa m && esigned ≠ [] && esigned.all char_is_ascii_digit
      | _ => false
  match s.data with
  | '+' :: rest => body rest
  | '-' :: rest => body rest
  | rest => rest ≠ [] && body rest

/-- Compaction loop of the right-parenthesis branch of `match_expression`:
while more operands than in-group operators remain (two or more of them),
either discard the `LeftParenthesis` marker on top of the operator stack and
stop, or combine the two most recent operands with the top operator.  Stacks
are modelled top-first (the Rust `Vec`s keep the top at the end). -/
def rp_compact : List Operand → List Token →
    Except ParseError (List Operand × List Token)
  | operands, [] => Except.ok (operands, [])
  | operands, op :: ops =>
    if operands.length >
        ((op :: ops).takeWhile (fun token => token ≠ Token.LeftParenthesis)).length
        && (op :: ops).length > 0 && operands.length ≥ 2 then
      if op = Token.LeftParenthesis then
        Except.ok (operands, ops)
      else
        match operands with
        | op2 :: op1 :: rest =>
          match apply_operator_to_terms op op1 op2 with
          | Except.ok compacted_op => rp_compact (compacted_op :: rest) ops
          | Except.error e => Except.error e
        | _ => Except.ok (operands, op :: ops)
    else
      Except.ok (operands, op :: ops)

/-- Final stack drain of `match_expression`: while at least two operands and
one operator remain, fail on a leftover parenthesis marker, otherwise combine
the two most recent operands with the top operator. -/
def final_compaction : List Operand → List Token →
    Except ParseError (List Operand × List Token)
  | operands, [] => Except.ok (operands, [])
  | operands, op :: ops =>
    if operands.length ≥ 2 then
      if op = Token.LeftParenthesis || op = Token.RightParenthesis then
        Except.error (ParseError.OperandCompactionIssue
          ("unexpected parenthesis on final compaction: " ++ token_repr op))
      else
        match operands with
        | op2 :: op1 :: rest =>
          match apply_operator_to_terms op op1 op2 with
          | Except.ok compacted_op => final_compaction (compacted_op :: rest) ops
          | Except.error e => Except.error e
        | _ => Except.ok (operands, op :: ops)
    else
      Except.ok (operands, op :: ops)

mutual

/-- Select statement rule, from `Parser::match_select`. -/
def match_select : Nat → Parser → Except ParseError (SelectStatement × Parser)
  | 0, _ => Except.error ParseError.OutOfFuel
  | fuel + 1, p => do
    let p ← p.match_token Token.Select
    let (select_expressions, p) ← match_select_expressions fuel p []
    let (from_expression, p) ← match_table_expression fuel p
    let (where_expression, p) ← match_where_expression fuel p
    pure (SelectStatement.mk select_expressions from_expression where_expression, p)

/-- Select-list loop, from `Parser::match_select_expressions` (the `while`
loop body carried through an accumulator). -/
def match_select_expressions : Nat → Parser → List SelectExpression →
    Except ParseError (List SelectExpression × Parser)
  | 0, _, _ => Except.error ParseError.OutOfFuel
  | fuel + 1, p, acc => do
    let t ← p.next_token
    if t = Token.From then
      pure (acc, p)
    else do
      let (acc, p) ←
        if t = Token.Star then do
          let p ← p.match_token Token.Star
          pure (acc ++ [SelectExpression.Star], p)
        else if p.peek_match_token_types
            [Token.Identifier "", Token.Period, Token.Star] then do
          let t ← p.next_token
          match t with
          | Token.Identifier id_name => do
            let p ← p.match_token (Token.Identifier id_name)
            let p ← p.match_token Token.Period
            let p ← p.match_token Token.Star
            pure (acc ++ [SelectExpression.Family id_name], p)
          | unexpected_token => Except.error (ParseError.InvalidToken unexpected_token)
        else do
          let (expression, p) ← match_expression fuel p
          let t ← p.next_token
          if t = Token.As then do
            let p ← p.match_token Token.As
            let next_token ← p.next_token
            match next_token with
            | Token.Identifier id_name => do
              let p ← p.match_token next_token
              pure (acc ++ [SelectExpression.Expression expression (some id_name)], p)
            | unexpected_token =>
              Except.error (ParseError.InvalidToken unexpected_token)
          else
            pure (acc ++ [SelectExpression.Expression expression none], p)
      let t ← p.next_token
      if t ≠ Token.From then do
        let p ← p.match_token Token.Comma
        let t ← p.next_token
        if t = Token.From then
          Except.error (ParseError.InvalidToken Token.From)
        else
          match_select_expressions fuel p acc
      else
        match_select_expressions fuel p acc

/-- Table expression rule, from `Parser::match_table_expression`. -/
def match_table_expression : Nat → Parser →
    Except ParseError (TableExpression × Parser)
  | 0, _ => Except.error ParseError.OutOfFuel
  | fuel + 1, p => do
    let p ← p.match_token Token.From
    let t ← p.next_token
    if t = Token.LeftParenthesis then do
      let p ← p.match_token Token.LeftParenthesis
      let (select_statement, p) ← match_select fuel p
      let p ← p.match_token Token.RightParenthesis
      let t ← p.next_token
      if t = Token.As then do
        let p ← p.match_token Token.As
        let next_token ← p.next_token
        match next_token with
        | Token.Identifier id_name => do
          let p ← p.match_token next_token
          pure (TableExpression.Select select_statement (some id_name), p)
        | unexpected_token => Except.error (ParseError.InvalidToken unexpected_token)
      else
        pure (TableExpression.Select select_statement none, p)
    else
      match t with
      | Token.Identifier _ => do
        let ((schema, table), p) ← p.match_table_name
        pure (TableExpression.Table schema table, p)
      | _ => Except.error (ParseError.NotImplemented
          "table expression type not implemented")

/-- Optional where clause, from `Parser::match_where_expression`. -/
def match_where_expression : Nat → Parser →
    Except ParseError (Option Term × Parser)
  | 0, _ => Except.error ParseError.OutOfFuel
  | fuel + 1, p => do
    let t ← p.next_token
    if t = Token.Where then do
      let p ← p.match_token Token.Where
      let (e, p) ← match_expression fuel p
      pure (some e, p)
    else
      pure (none, p)

/-- Expression engine entry, from `Parser::match_expression`: run the
dual-stack loop, drain, and demand exactly one operand and no operators. -/
def match_expression : Nat → Parser → Except ParseError (Term × Parser)
  | 0, _ => Except.error ParseError.OutOfFuel
  | fuel + 1, p => do
    let (operands, operators, p) ← match_expression_loop fuel p [] [] false
    let (operands, operators) ← final_compaction operands operators
    if operands.length ≠ 1 || operators.length ≠ 0 then
      Except.error (ParseError.OperandCompactionIssue
        ("expected to have 1 operand but have " ++ toString operands.length ++
         " operands and " ++ toString operators.length ++ " operators"))
    else
      match operands with
      | [last_operand] => pure (Term.Operand last_operand, p)
      | _ => Except.error (ParseError.OperandCompactionIssue
          ("expected to have 1 operand but have " ++ toString operands.length ++
           " operands and " ++ toString operators.length ++ " operators"))

/-- The `while expression_continues` loop of `Parser::match_expression`, with
the operand stack, operator stack and `last_was_term` flag carried
explicitly; stacks are modelled top-first (the Rust `Vec`s keep the top at
the end, `remove(len-2)`/`remove(len-1)` take the two most recent). -/
def match_expression_loop : Nat → Parser → List Operand → List Token → Bool →
    Except ParseError (List Operand × List Token × Parser)
  | 0, _, _, _, _ => Except.error ParseError.OutOfFuel
  | fuel + 1, p, operands, operators, last_was_term => do
    let continues ← p.expression_continues
    if !continues then
      pure (operands, operators, p)
    else do
      let next_token ← p.next_token
      if next_token = Token.LeftParenthesis then do
        let p ← p.match_token next_token
        match_expression_loop fuel p operands (next_token :: operators) false
      else if !last_was_term then do
        let (term, p) ← match_base_term fuel p
        match_expression_loop fuel p (Operand.Term term :: operands) operators true
      else if next_token.is_expression_operator then do
        let number_of_operators :=
          (operators.takeWhile (fun token => token ≠ Token.LeftParenthesis)).length
        let number_of_operands := number_of_operators + 1
        let (operands, operators) ←
          match operators with
          | last_operator :: rest_operators =>
            if Parser.operator_precedence next_token ≤
                Parser.operator_precedence last_operator
                && number_of_operands > number_of_operators
                && operators.length > 0 && operands.length ≥ 2 then
              match operands with
              | op2 :: op1 :: rest => do
                let compacted_op ← apply_operator_to_terms last_operator op1 op2
                pure (compacted_op :: rest, rest_operators)
              | _ => pure (operands, operators)
            else
              pure (operands, operators)
          | [] => pure (operands, operators)
        let p ← p.match_token next_token
        match_expression_loop fuel p operands (next_token :: operators) false
      else if next_token = Token.RightParenthesis then do
        let p ← p.match_token next_token
        let (operands, operators) ← rp_compact operands operators
        match_expression_loop fuel p operands operators true
      else
        Except.error (ParseError.NotImplemented
          ("expected an expression operator or right parenthesis but found: " ++
           token_repr next_token))

/-- Base term rule, from `Parser::match_base_term`: function call, column
reference, or numeric literal. -/
def match_base_term : Nat → Parser → Except ParseError (Term × Parser)
  | 0, _ => Except.error ParseError.OutOfFuel
  | fuel + 1, p => do
    let next_token ← p.next_token
    if p.peek_match_token_types [Token.Identifier "", Token.LeftParenthesis] then do
      match next_token with
      | Token.Identifier id_name => do
        let p ← p.match_token next_token
        let p ← p.match_token Token.LeftParenthesis
        let t ← p.next_token
        if t = Token.RightParenthesis then
          pure (Term.Function (Function.UserDefined id_name []), p)
        else do
          let (expressions, p) ← function_terms_loop fuel p []
          pure (Term.Function (Function.UserDefined id_name expressions), p)
      | ut => Except.error (ParseError.InvalidToken ut)
    else
      match next_token with
      | Token.Identifier _ => do
        let ((schema, name), p) ← p.match_table_name
        pure (Term.Column (Column.Direct schema name), p)
      | Token.Number value => do
        let p ← p.match_token (Token.Number value)
        match parse_i64 value with
        | some int_val => pure (Term.Value (Value.Numeric (Numeric.Int int_val)), p)
        | none =>
          if parse_f64_accepts value then
            pure (Term.Value (Value.Numeric (Numeric.Float value)), p)
          else
            Except.error (ParseError.InvalidNumber value)
      | _ => Except.error (ParseError.NotImplemented "match_term")

/-- Argument loop of the function-call branch of `Parser::match_base_term`:
iterate full sub-expressions separated by commas until a `RightParenthesis`
is next (which is left unconsumed, as in the source). -/
def function_terms_loop : Nat → Parser → List Term →
    Except ParseError (List Term × Parser)
  | 0, _, _ => Except.error ParseError.OutOfFuel
  | fuel + 1, p, acc => do
    let t ← p.next_token
    if t = Token.RightParenthesis then
      pure (acc, p)
    else do
      let (expression, p) ← match_expression fuel p
      let t ← p.next_token
      if t = Token.Comma then do
        let p ← p.match_token Token.Comma
        function_terms_loop fuel p (acc ++ [expression])
      else
        function_terms_loop fuel p (acc ++ [expression])

end

/-- Fuel bound used by the embedding: every mutual call and loop iteration
spends one unit, and each spends at least one unit per consumed token or
terminates, so a generous linear bound suffices for every input. -/
def parse_fuel (p : Parser) : Nat := p.tokens.length * 24 + 64

/-- The parser entry point, from `Parser::parse`. -/
def Parser.parse (p : Parser) : Except ParseError Statement := do
  if p.tokens.length = 0 then
    Except.error ParseError.EmptyQueryString
  else do
    let t0 ← p.next_token
    let p ←
      if t0 = Token.Space then
        let step := p.read_next_token
        if !step.1 then Except.error ParseError.NoMoreTokens
        else pure step.2
      else
        pure p
    let next_token ← p.next_token
    if next_token = Token.Select then do
      let (select_statement, p) ← match_select (parse_fuel p) p
      let _ ← p.match_token Token.Semicolon
      pure (Statement.Select select_statement)
    else
      Except.error (ParseError.InvalidToken next_token)

/-- Construction of a parser from query text, from `Parser::new` (the query
given as its grapheme segmentation). -/
def Parser.new (query : List String) : Parser :=
  { tokens := lex query, token_index := 0 }

/-- End-to-end parse of query text, `Parser::new` followed by
`Parser::parse`. -/
def parse_query (query : List String) : Except ParseError Statement :=
  (Parser.new query).parse

set_option maxHeartbeats 4000000
set_option maxRecDepth 1000000

/-- Observable for failed parses: the result is exactly the given error. -/
def got_error (r : Except ParseError Statement) (e : ParseError) : Bool :=
  match r with
  | Except.error e2 => e = e2
  | Except.ok _ => false

lemma got_error_sound (r : Except ParseError Statement) (e : ParseError)
    (h : got_error r e = true) : r = Except.error e := by
  match r with
  | Except.ok s => simp [got_error] at h
  | Except.error e2 =>
    simp [got_error] at h
    rw [h]

lemma text_concat_append (l : List String) (g : String) :
    text_concat (l ++ [g]) = text_concat l ++ g := by
  simp [text_concat, List.foldl_append]

lemma char_toString_data (v : Char) : (Char.toString v).data = [v] := rfl

lemma str_eq_toString_iff (a : Char) (s : String) (v : Char) (h : s.data = [a]) :
    (s = Char.toString v) ↔ a = v := by
  constructor
  · intro he
    have hd := congrArg String.data he
    rw [h, char_toString_data] at hd
    simpa using hd
  · intro he
    apply String.ext
    rw [h, char_toString_data, he]

lemma ws_not_symbol (g : String)
    (h : SpaceTokenizer.is_valid_starting_character g = true) :
    SymbolTokenizer.is_valid_starting_character g = false := by
  unfold SpaceTokenizer.is_valid_starting_character at h
  unfold SymbolTokenizer.is_valid_starting_character
  match hf : first_char g with
  | none => simp [hf] at h
  | some v =>
    simp [hf] at h ⊢
    intro k hk
    simp [SymbolTokenizer.symbols] at hk
    rcases hk with rfl|rfl|rfl|rfl|rfl|rfl|rfl|rfl|rfl|rfl|rfl|rfl|rfl|rfl|rfl <;>
      first
      | · rw [str_eq_toString_iff _ _ _ (by rfl)]
          intro he
          rw [← he] at h
          simp [char_is_whitespace] at h
      | · intro he
          have hd := congrArg String.data he
          rw [char_toString_data] at hd
          simp at hd

lemma ws_not_quoted (g : String)
    (h : SpaceTokenizer.is_valid_starting_character g = true) :
    QuotedTokenizer.is_valid_starting_character g = false := by
  unfold QuotedTokenizer.is_valid_starting_character QuoteType.try_from
  by_cases h1 : g = "'"
  · subst h1; simp [SpaceTokenizer.is_valid_starting_character, first_char,
      char_is_whitespace] at h
  · by_cases h2 : g = "\""
    · subst h2; simp [SpaceTokenizer.is_valid_starting_character, first_char,
        char_is_whitespace] at h
    · by_cases h3 : g = "`"
      · subst h3; simp [SpaceTokenizer.is_valid_starting_character, first_char,
          char_is_whitespace] at h
      · simp [h1, h2, h3]

lemma ws_not_keyword (g : String)
    (h : SpaceTokenizer.is_valid_starting_character g = true) :
    KeywordTokenizer.is_valid_starting_character g = false := by
  unfold SpaceTokenizer.is_valid_starting_character at h
  unfold KeywordTokenizer.is_valid_starting_character
  match hf : first_char g with
  | none => simp [hf] at h
  | some v =>
    simp [hf] at h ⊢
    intro _
    constructor
    · simp [char_is_whitespace] at h
      simp [char_is_ascii_alpha]
      omega
    · intro hg
      subst hg
      simp [first_char] at hf
      rw [← hf] at h
      simp [char_is_whitespace] at h

lemma ws_not_number (g : String)
    (h : SpaceTokenizer.is_valid_starting_character g = true) :
    NumberTokenizer.is_valid_starting_character g = false := by
  unfold SpaceTokenizer.is_valid_starting_character at h
  unfold NumberTokenizer.is_valid_starting_character
  match hf : first_char g with
  | none => simp [hf] at h
  | some v =>
    simp [hf] at h ⊢
    intro _
    constructor
    · simp [char_is_whitespace] at h
      simp [char_is_ascii_digit]
      omega
    · intro hg
      subst hg
      simp [first_char] at hf
      rw [← hf] at h
      simp [char_is_whitespace] at h

lemma ws_dispatch (g : String) (acc : List Token)
    (h : SpaceTokenizer.is_valid_starting_character g = true) :
    lex_dispatch g acc = (some ActiveTokenizer.SpaceTokenizer, acc) := by
  unfold lex_dispatch
  rw [ws_not_quoted g h, ws_not_keyword g h, ws_not_symbol g h, ws_not_number g h, h]
  simp

lemma ws_step (g : String)
    (h : SpaceTokenizer.is_valid_starting_character g = true) :
    add_next_character ActiveTokenizer.SpaceTokenizer g =
      (ActiveTokenizer.SpaceTokenizer, false, true) := by
  unfold SpaceTokenizer.is_valid_starting_character at h
  unfold add_next_character
  match hf : first_char g with
  | none => simp [hf] at h
  | some v => simp [hf] at h ⊢; simp [h]

lemma ws_loop (gs : List String) (acc : List Token)
    (h : ∀ g ∈ gs, SpaceTokenizer.is_valid_starting_character g = true) :
    lex_loop gs (some ActiveTokenizer.SpaceTokenizer) acc = acc ++ [Token.Space] := by
  induction gs generalizing acc with
  | nil => rfl
  | cons g rest ih =>
    have hg := h g (by simp)
    rw [lex_loop, ws_step g hg]
    simpa using ih acc (fun x hx => h x (by simp [hx]))

lemma ws_lex (g : String) (gs : List String)
    (h : ∀ x ∈ g :: gs, SpaceTokenizer.is_valid_starting_character x = true) :
    lex (g :: gs) = [Token.Space] := by
  rw [lex, lex_loop, ws_dispatch g [] (h g (by simp))]
  exact ws_loop gs [] (fun x hx => h x (by simp [hx]))

/-- Predicate used by the number-token invariant: the token text begins with
an ASCII digit. -/
def starts_with_digit (s : String) : Bool :=
  match s.data with
  | c :: _ => char_is_ascii_digit c
  | [] => false

/-- Invariant of the lexing loop: whenever the active tokenizer is the number
tokenizer, its accumulated text already begins with an ASCII digit. -/
def num_state_inv (st : Option ActiveTokenizer) : Prop :=
  ∀ text, st = some (ActiveTokenizer.NumberTokenizer text) →
    starts_with_digit (text_concat text) = true

/-- Invariant of the emitted token list: every `Number` token's text begins
with an ASCII digit. -/
def numbers_ok (acc : List Token) : Prop :=
  ∀ txt, Token.Number txt ∈ acc → starts_with_digit txt = true

lemma match_keyword_some (tok : Token) (ms ss : String) (t : Token)
    (h : KeywordTokenizer.match_keyword tok ms ss = some t) : t = tok := by
  unfold KeywordTokenizer.match_keyword at h
  split at h
  · split at h <;> simp_all
  · simp_all

lemma match_symbol_some (tok : Token) (s1 s2 : String) (t : Token)
    (h : SymbolTokenizer.match_symbol tok s1 s2 = some t) : t = tok := by
  unfold SymbolTokenizer.match_symbol at h
  split at h <;> simp_all

lemma keyword_scan_mem (table : List StaticToken) (s : String) (t : Token)
    (h : keyword_scan table s = some t) : ∃ k ∈ table, t = k.token := by
  induction table with
  | nil => simp [keyword_scan] at h
  | cons k rest ih =>
    rw [keyword_scan] at h
    match hm : KeywordTokenizer.match_keyword k.token k.text s with
    | some t2 =>
      rw [hm] at h
      exact ⟨k, by simp, by
        injection h with h2
        rw [← h2]
        exact match_keyword_some _ _ _ _ hm⟩
    | none =>
      rw [hm] at h
      obtain ⟨k2, hk2, ht⟩ := ih h
      exact ⟨k2, by simp [hk2], ht⟩

lemma symbol_scan_mem (table : List StaticToken) (s : String) (t : Token)
    (h : symbol_scan table s = some t) : ∃ k ∈ table, t = k.token := by
  induction table with
  | nil => simp [symbol_scan] at h
  | cons k rest ih =>
    rw [symbol_scan] at h
    match hm : SymbolTokenizer.match_symbol k.token k.text s with
    | some t2 =>
      rw [hm] at h
      exact ⟨k, by simp, by
        injection h with h2
        rw [← h2]
        exact match_symbol_some _ _ _ _ hm⟩
    | none =>
      rw [hm] at h
      obtain ⟨k2, hk2, ht⟩ := ih h
      exact ⟨k2, by simp [hk2], ht⟩

lemma keyword_lookup_not_number (s : String) (t : Token) (txt : String)
    (h : KeywordTokenizer.token_from_string s = some t) : t ≠ Token.Number txt := by
  obtain ⟨k, hk, ht⟩ := keyword_scan_mem _ _ _ h
  subst ht
  simp [KeywordTokenizer.keywords] at hk
  rcases hk with rfl|rfl|rfl|rfl|rfl|rfl|rfl|rfl|rfl|rfl|rfl|rfl|rfl|rfl|rfl|rfl|rfl <;> simp

lemma symbol_lookup_not_number (s : String) (t : Token) (txt : String)
    (h : SymbolTokenizer.token_from_string s = some t) : t ≠ Token.Number txt := by
  obtain ⟨k, hk, ht⟩ := symbol_scan_mem _ _ _ h
  subst ht
  simp [SymbolTokenizer.symbols] at hk
  rcases hk with rfl|rfl|rfl|rfl|rfl|rfl|rfl|rfl|rfl|rfl|rfl|rfl|rfl|rfl|rfl <;> simp

lemma to_token_number (tk : ActiveTokenizer) (hinv : num_state_inv (some tk))
    (txt : String) (h : to_token tk = Token.Number txt) :
    starts_with_digit txt = true := by
  match tk with
  | ActiveTokenizer.QuotedTokenizer q text => cases q <;> simp [to_token] at h
  | ActiveTokenizer.KeywordTokenizer text =>
    rw [to_token] at h
    match hl : KeywordTokenizer.token_from_string (text_concat text) with
    | some t => rw [hl] at h; exact absurd h (keyword_lookup_not_number _ _ _ hl)
    | none => rw [hl] at h; simp at h
  | ActiveTokenizer.SymbolTokenizer text =>
    rw [to_token] at h
    match hl : SymbolTokenizer.token_from_string (text_concat text) with
    | some t => rw [hl] at h; exact absurd h (symbol_lookup_not_number _ _ _ hl)
    | none => rw [hl] at h; simp at h
  | ActiveTokenizer.NumberTokenizer text =>
    rw [to_token] at h
    injection h with h2
    rw [← h2]
    exact hinv text rfl
  | ActiveTokenizer.SpaceTokenizer => simp [to_token] at h

lemma numbers_ok_push (acc : List Token) (t : Token) (hacc : numbers_ok acc)
    (ht : ∀ txt, t = Token.Number txt → starts_with_digit txt = true) :
    numbers_ok (acc ++ [t]) := by
  intro txt hm
  rcases List.mem_append.mp hm with hm | hm
  · exact hacc txt hm
  · simp at hm
    exact ht txt hm.symm

lemma starts_append (s g : String) (h : starts_with_digit s = true) :
    starts_with_digit (s ++ g) = true := by
  rw [starts_with_digit] at h ⊢
  have hd : (s ++ g).data = s.data ++ g.data := rfl
  match hs : s.data with
  | [] => rw [hs] at h; simp at h
  | c :: cs => rw [hs] at h; rw [hd, hs]; simpa using h

lemma add_preserves (tk : ActiveTokenizer) (g : String)
    (hinv : num_state_inv (some tk)) :
    num_state_inv (some (add_next_character tk g).1) := by
  intro text2 h2
  simp only [Option.some.injEq] at h2
  match tk with
  | ActiveTokenizer.QuotedTokenizer q text =>
    rw [add_next_character] at h2
    repeat' split at h2
    all_goals simp at h2
  | ActiveTokenizer.KeywordTokenizer text =>
    rw [add_next_character] at h2
    repeat' split at h2
    all_goals simp at h2
  | ActiveTokenizer.SymbolTokenizer text =>
    rw [add_next_character] at h2
    repeat' split at h2
    all_goals simp at h2
  | ActiveTokenizer.NumberTokenizer text =>
    rw [add_next_character] at h2
    repeat' split at h2
    all_goals simp at h2
    all_goals rw [← h2]
    all_goals first
      | (rw [text_concat_append]; exact starts_append _ _ (hinv text rfl))
      | exact hinv text rfl
  | ActiveTokenizer.SpaceTokenizer =>
    rw [add_next_character] at h2
    repeat' split at h2
    all_goals simp at h2

lemma dispatch_inv (g : String) (acc : List Token) (hacc : numbers_ok acc) :
    num_state_inv (lex_dispatch g acc).1 ∧ numbers_ok (lex_dispatch g acc).2 := by
  rw [lex_dispatch]
  by_cases hq : QuotedTokenizer.is_valid_starting_character g = true
  · rw [if_pos hq]
    refine ⟨?_, hacc⟩
    intro text h2
    match htf : QuoteType.try_from g with
    | some q => rw [htf] at h2; simp at h2
    | none => rw [htf] at h2; simp at h2
  · rw [if_neg hq]
    by_cases hk : KeywordTokenizer.is_valid_starting_character g = true
    · rw [if_pos hk]
      exact ⟨fun text h2 => by simp at h2, hacc⟩
    · rw [if_neg hk]
      by_cases hs : SymbolTokenizer.is_valid_starting_character g = true
      · rw [if_pos hs]
        exact ⟨fun text h2 => by simp at h2, hacc⟩
      · rw [if_neg hs]
        by_cases hn : NumberTokenizer.is_valid_starting_character g = true
        · rw [if_pos hn]
          refine ⟨?_, hacc⟩
          intro text h2
          simp at h2
          rw [← h2]
          unfold NumberTokenizer.is_valid_starting_character at hn
          match hf : first_char g with
          | none => rw [hf] at hn; simp at hn
          | some t =>
            rw [hf] at hn
            simp at hn
            obtain ⟨hascii, hdig⟩ := hn
            rcases hdig with hdig | hdot
            · have hcg : text_concat [g] = g := by
                show "" ++ g = g
                rfl
              rw [hcg]
              simp [first_char] at hf
              match hgd : g.data with
              | [] => rw [hgd] at hf; simp at hf
              | c :: cs =>
                rw [hgd] at hf
                simp at hf
                rw [starts_with_digit, hgd]
                show char_is_ascii_digit c = true
                rw [hf]
                exact hdig
            · exfalso
              apply hs
              rw [hdot]
              decide
        · rw [if_neg hn]
          by_cases hsp : SpaceTokenizer.is_valid_starting_character g = true
          · rw [if_pos hsp]
            exact ⟨fun text h2 => by simp at h2, hacc⟩
          · rw [if_neg hsp]
            refine ⟨fun text h2 => by simp at h2, ?_⟩
            exact numbers_ok_push acc Token.UndefinedTokenType hacc
              (fun txt h => by simp at h)

lemma lex_loop_numbers (gs : List String) (st : Option ActiveTokenizer)
    (acc : List Token) (hst : num_state_inv st) (hacc : numbers_ok acc) :
    numbers_ok (lex_loop gs st acc) := by
  induction gs generalizing st acc with
  | nil =>
    match st with
    | some tk =>
      rw [lex_loop]
      exact numbers_ok_push acc (to_token tk) hacc (fun txt h =>
        to_token_number tk hst txt h)
    | none => rw [lex_loop]; exact hacc
  | cons g rest ih =>
    match st with
    | none =>
      rw [lex_loop]
      obtain ⟨h1, h2⟩ := dispatch_inv g acc hacc
      exact ih _ _ h1 h2
    | some tk =>
      rw [lex_loop]
      have hpres := add_preserves tk g hst
      match hstep : add_next_character tk g with
      | (tk2, done, consumed) =>
        rw [hstep] at hpres
        simp only []
        match done, consumed with
        | true, true =>
          simp only [if_true]
          apply ih none (acc ++ [to_token tk2])
          · intro text h2; simp at h2
          · exact numbers_ok_push acc (to_token tk2) hacc (fun txt h =>
              to_token_number tk2 hpres txt h)
        | true, false =>
          simp only [if_true, if_false, Bool.false_eq_true]
          obtain ⟨h1, h2⟩ := dispatch_inv g (acc ++ [to_token tk2])
            (numbers_ok_push acc (to_token tk2) hacc (fun txt h =>
              to_token_number tk2 hpres txt h))
          exact ih _ _ h1 h2
        | false, _ =>
          simp only [Bool.false_eq_true, if_false]
          exact ih (some tk2) acc hpres hacc

/-- Conjunction of the five sub-tokenizer start predicates all failing on a
grapheme; in `lex` such a grapheme is emitted directly as
`UndefinedTokenType`. -/
def no_tokenizer_starts (g : String) : Bool :=
  !QuotedTokenizer.is_valid_starting_character g &&
  !KeywordTokenizer.is_valid_starting_character g &&
  !SymbolTokenizer.is_valid_starting_character g &&
  !NumberTokenizer.is_valid_starting_character g &&
  !SpaceTokenizer.is_valid_starting_character g

/-- C1: the claim says a query of the form
`select * from t where (1+2)*3 = x;` parses, with the leading `(` pushed as
a marker onto the operator stack and the group overriding numeric
precedence.  The code cannot do this: `expression_continues` returns `false`
at a `LeftParenthesis` (it is neither an expression operator nor an
identifier/number lookahead), so the expression loop exits at once and the
dedicated parenthesis branches of `match_expression` are unreachable; the
whole query fails with an `OperandCompactionIssue` reporting zero operands.
This theorem evaluates the code at the failing input and records the reason. -/
theorem c1_parenthesized_group_fails_to_parse :
    parse_query (graphemes "select * from bike where (1+2)*3 = x;") =
      Except.error (ParseError.OperandCompactionIssue
        "expected to have 1 operand but have 0 operands and 0 operators") ∧
    Token.is_expression_operator Token.LeftParenthesis = false ∧
    Token.is_expression_operator Token.RightParenthesis = false := by
  refine ⟨got_error_sound _ _ (by decide), rfl, rfl⟩

/-- C2 counterexample: inserting whitespace between tokens can turn a
successful parse into a failure, contradicting the claim.  The query
`select a.* from bike;` parses to a `Family` select-expression, but
`select a . * from bike;` fails — `peek_match_token_types` does not skip
`Space` tokens, so the `identifier·period·star` lookahead misses and the
parser falls into the expression branch, later failing at the comma check. -/
theorem c2_whitespace_counterexample :
    parse_query (graphemes "select a.* from bike;") =
      Except.ok (Statement.Select (SelectStatement.mk
        [SelectExpression.Family "a"] (TableExpression.Table none "bike") none)) ∧
    parse_query (graphemes "select a . * from bike;") =
      Except.error (ParseError.InvalidNextToken Token.Comma Token.Period) := by
  exact ⟨by rfl, got_error_sound _ _ (by decide)⟩

/-- C2 amended: whitespace is transparent at single-token consumption points
(`read_next_token` skips `Space` tokens), so adding extra whitespace between
tokens of `select * from bike;` leaves the parsed AST unchanged; but
`peek_match_token_types` does not skip `Space`, so whitespace inserted inside
a multi-token lookahead pattern (`name.*`, `schema.table`, `name(`) changes
branch selection and can turn a successful parse into a failure. -/
theorem c2_whitespace_amended :
    parse_query (graphemes "select * from bike;") =
      Except.ok (Statement.Select (SelectStatement.mk
        [SelectExpression.Star] (TableExpression.Table none "bike") none)) ∧
    parse_query (graphemes "select   *   from   bike  ;") =
      Except.ok (Statement.Select (SelectStatement.mk
        [SelectExpression.Star] (TableExpression.Table none "bike") none)) ∧
    parse_query (graphemes "select a . * from bike;") =
      Except.error (ParseError.InvalidNextToken Token.Comma Token.Period) := by
  exact ⟨by rfl, by rfl, got_error_sound _ _ (by decide)⟩

/-- C3 counterexample: none of the claimed behaviours hold in a statement.
`select count(*) from bike;` fails with `NotImplemented "match_term"` (the
`*` argument is not a valid base term, and no `Function::Count` is built);
`select sum(value) from bike;` and `select f() from bike;` fail with
`InvalidNextToken(Comma, RightParenthesis)` because `match_base_term` never
consumes a function call's closing parenthesis. -/
theorem c3_function_calls_counterexample :
    parse_query (graphemes "select count(*) from bike;") =
      Except.error (ParseError.NotImplemented "match_term") ∧
    parse_query (graphemes "select sum(value) from bike;") =
      Except.error (ParseError.InvalidNextToken Token.Comma Token.RightParenthesis) ∧
    parse_query (graphemes "select f() from bike;") =
      Except.error (ParseError.InvalidNextToken Token.Comma Token.RightParenthesis) := by
  exact ⟨got_error_sound _ _ (by decide), got_error_sound _ _ (by decide),
    got_error_sound _ _ (by decide)⟩

/-- C3 amended: every function call that `match_base_term` parses produces
`Function.UserDefined` (never the `Sum`/`Count` variants): as a base term,
`f()` yields `UserDefined "f" []` and `sum(value)` yields
`UserDefined "sum"` applied to the column argument; in both cases the cursor
is left pointing at the unconsumed closing `RightParenthesis`, so enclosing
statements such as `select f() from bike;` fail with
`InvalidNextToken(Comma, RightParenthesis)`, and `count(*)` fails with
`NotImplemented "match_term"` because `*` is not a valid base term. -/
theorem c3_function_calls_amended :
    match_base_term 32 (Parser.new (graphemes "f()")) =
      Except.ok (Term.Function (Function.UserDefined "f" []),
        ({ tokens := [Token.Identifier "f", Token.LeftParenthesis,
                      Token.RightParenthesis],
           token_index := 2 } : Parser)) ∧
    match_base_term 32 (Parser.new (graphemes "sum(value)")) =
      Except.ok (Term.Function (Function.UserDefined "sum"
        [Term.Operand (Operand.Term (Term.Column (Column.Direct none "value")))]),
        ({ tokens := [Token.Identifier "sum", Token.LeftParenthesis,
                      Token.Identifier "value", Token.RightParenthesis],
           token_index := 3 } : Parser)) ∧
    parse_query (graphemes "select f() from bike;") =
      Except.error (ParseError.InvalidNextToken Token.Comma Token.RightParenthesis) ∧
    parse_query (graphemes "select count(*) from bike;") =
      Except.error (ParseError.NotImplemented "match_term") := by
  exact ⟨by rfl, by rfl, got_error_sound _ _ (by decide),
    got_error_sound _ _ (by decide)⟩

/-- C4 counterexample: the keyword lookup is not case-insensitive for every
casing.  The mixed-case run `Select` lexes to `Identifier "Select"`, not to
the `Select` keyword token, because `match_keyword` first requires the
scanned text to be entirely lowercase or entirely uppercase. -/
theorem c4_mixed_case_keyword_counterexample :
    lex (graphemes "Select") = [Token.Identifier "Select"] ∧
    [Token.Identifier "Select"] ≠ [Token.Select] := by
  exact ⟨by rfl, by decide⟩

/-- C4 amended: a keyword run is recognised only when its text is entirely
lowercase or entirely uppercase (`match_keyword`'s outer guard); those
casings lex to the keyword token, while mixed-case runs such as `Select` and
`sElEcT` — and genuinely unmatched runs — become `Identifier` with their
exact text. -/
theorem c4_keyword_casing_amended :
    lex (graphemes "select") = [Token.Select] ∧
    lex (graphemes "SELECT") = [Token.Select] ∧
    lex (graphemes "Select") = [Token.Identifier "Select"] ∧
    lex (graphemes "sElEcT") = [Token.Identifier "sElEcT"] ∧
    lex (graphemes "foo") = [Token.Identifier "foo"] ∧
    KeywordTokenizer.match_keyword Token.Select "select" "SELECT" =
      some Token.Select ∧
    KeywordTokenizer.match_keyword Token.Select "select" "Select" = none := by
  exact ⟨by rfl, by rfl, by rfl, by rfl, by rfl, by rfl, by rfl⟩

/-- C5: tokenizer totality.  `lex` is a total Lean function (structural
recursion over the grapheme list), and the three claimed behaviours hold:
at end of input an open sub-tokenizer is finalised into one last token; a
grapheme matched by no sub-tokenizer's start predicate is emitted directly
as `UndefinedTokenType`; and concretely an unterminated quoted string is
swallowed into one token extending to end of input, while a bare emoji
grapheme becomes `UndefinedTokenType`. -/
theorem c5_lexer_totality :
    (∀ (tk : ActiveTokenizer) (acc : List Token),
      lex_loop [] (some tk) acc = acc ++ [to_token tk]) ∧
    (∀ (g : String) (rest : List String) (acc : List Token),
      no_tokenizer_starts g = true →
      lex_loop (g :: rest) none acc =
        lex_loop rest none (acc ++ [Token.UndefinedTokenType])) ∧
    lex (graphemes "select '🥵") =
      [Token.Select, Token.Space, Token.StringToken "🥵"] ∧
    lex (graphemes "🥵") = [Token.UndefinedTokenType] := by
  refine ⟨fun tk acc => rfl, ?_, by rfl, by rfl⟩
  intro g rest acc h
  simp only [no_tokenizer_starts, Bool.and_eq_true, Bool.not_eq_true'] at h
  obtain ⟨⟨⟨⟨h1, h2⟩, h3⟩, h4⟩, h5⟩ := h
  rw [lex_loop]
  simp [lex_dispatch, h1, h2, h3, h4, h5]

/-- C5 witness: the finalisation equation at the whitespace tokenizer and
the undefined-grapheme equation at a bare emoji, both concrete. -/
theorem c5_lexer_totality_witness :
    lex_loop [] (some ActiveTokenizer.SpaceTokenizer) [] = [Token.Space] ∧
    lex_loop ["🥵"] none [] = lex_loop [] none [Token.UndefinedTokenType] := by
  constructor
  · simpa using c5_lexer_totality.1 ActiveTokenizer.SpaceTokenizer []
  · simpa using c5_lexer_totality.2.1 "🥵" [] [] (by decide)

/-- C6: precedence and left-associativity.  As a where-clause expression,
`1+2*3` parses to `Addition(1, Multiplication(2,3))` and `1-2-3` parses to
`Subtraction(Subtraction(1,2),3)`, and the operator precedence table is
OR=7 < AND=8 < comparisons=9 < plus/minus=10 < star/slash=11. -/
theorem c6_precedence_left_associativity :
    parse_query (graphemes "select * from bike where 1+2*3;") =
      Except.ok (Statement.Select (SelectStatement.mk [SelectExpression.Star]
        (TableExpression.Table none "bike")
        (some (Term.Operand (Operand.Addition
          (Operand.Term (Term.Value (Value.Numeric (Numeric.Int 1))))
          (Operand.Multiplication
            (Operand.Term (Term.Value (Value.Numeric (Numeric.Int 2))))
            (Operand.Term (Term.Value (Value.Numeric (Numeric.Int 3)))))))))) ∧
    parse_query (graphemes "select * from bike where 1-2-3;") =
      Except.ok (Statement.Select (SelectStatement.mk [SelectExpression.Star]
        (TableExpression.Table none "bike")
        (some (Term.Operand (Operand.Subtraction
          (Operand.Subtraction
            (Operand.Term (Term.Value (Value.Numeric (Numeric.Int 1))))
            (Operand.Term (Term.Value (Value.Numeric (Numeric.Int 2)))))
          (Operand.Term (Term.Value (Value.Numeric (Numeric.Int 3))))))))) ∧
    Parser.operator_precedence Token.Or = 7 ∧
    Parser.operator_precedence Token.And = 8 ∧
    Parser.operator_precedence Token.Equal = 9 ∧
    Parser.operator_precedence Token.NotEqual = 9 ∧
    Parser.operator_precedence Token.LessThan = 9 ∧
    Parser.operator_precedence Token.LessThanEqual = 9 ∧
    Parser.operator_precedence Token.GreaterThan = 9 ∧
    Parser.operator_precedence Token.GreaterThanEqual = 9 ∧
    Parser.operator_precedence Token.Plus = 10 ∧
    Parser.operator_precedence Token.Minus = 10 ∧
    Parser.operator_precedence Token.Star = 11 ∧
    Parser.operator_precedence Token.ForwardSlash = 11 := by
  exact ⟨by rfl, by rfl, rfl, rfl, rfl, rfl, rfl, rfl, rfl, rfl, rfl, rfl,
    rfl, rfl⟩

/-- C7 counterexample: `select * from bike` (no trailing semicolon) fails
with `NoMoreTokens`, not with the `InvalidNextToken(Semicolon, _)` mismatch
the claim asserts: after the table name is consumed, `match_where_expression`
peeks for `WHERE` past the end of the token stream and `next_token` raises
`NoMoreTokens` before `match_token(Semicolon)` is ever reached. -/
theorem c7_missing_semicolon_counterexample :
    parse_query (graphemes "select * from bike") =
      Except.error ParseError.NoMoreTokens ∧
    ParseError.NoMoreTokens ≠
      ParseError.InvalidNextToken Token.Semicolon (Token.Identifier "bike") := by
  exact ⟨got_error_sound _ _ (by decide), by decide⟩

/-- C7 amended: an otherwise-valid SELECT query whose text simply ends
without the trailing semicolon fails with `NoMoreTokens` (raised while
peeking for the optional WHERE clause); the `InvalidNextToken(Semicolon, t)`
mismatch arises only when some non-semicolon token `t` remains at the end,
as in `select * from bike x`. -/
theorem c7_missing_semicolon_amended :
    parse_query (graphemes "select * from bike") =
      Except.error ParseError.NoMoreTokens ∧
    parse_query (graphemes "select * from bike x") =
      Except.error (ParseError.InvalidNextToken Token.Semicolon
        (Token.Identifier "x")) := by
  exact ⟨got_error_sound _ _ (by decide), got_error_sound _ _ (by decide)⟩

/-- C8: end-to-end round trip on literals.  `select * from items.bike;`
parses to a `Select` statement whose select-list is exactly `[Star]`, whose
from-expression is `Table{schema = some "items", table = "bike"}`, and whose
where-expression is `none`. -/
theorem c8_round_trip_literals :
    parse_query (graphemes "select * from items.bike;") =
      Except.ok (Statement.Select (SelectStatement.mk [SelectExpression.Star]
        (TableExpression.Table (some "items") "bike") none)) := by
  rfl

/-- C9: every non-empty input consisting only of whitespace graphemes lexes
to the single token `[Space]`, and parsing it fails with `NoMoreTokens`
(so not with `EmptyQueryString`, which requires zero tokens): `parse` sees
the leading `Space`, `read_next_token` skips to the end of the stream, and
the parse aborts. -/
theorem c9_whitespace_only_no_more_tokens (gs : List String) (hne : gs ≠ [])
    (hws : ∀ g ∈ gs, SpaceTokenizer.is_valid_starting_character g = true) :
    lex gs = [Token.Space] ∧
    parse_query gs = Except.error ParseError.NoMoreTokens := by
  match gs with
  | [] => exact absurd rfl hne
  | g :: rest =>
    have hlex := ws_lex g rest hws
    refine ⟨hlex, ?_⟩
    show Parser.parse { tokens := lex (g :: rest), token_index := 0 } = _
    rw [hlex]
    rfl

/-- C9 witness: the single-blank input. -/
theorem c9_whitespace_only_witness :
    lex [" "] = [Token.Space] ∧
    parse_query [" "] = Except.error ParseError.NoMoreTokens :=
  c9_whitespace_only_no_more_tokens [" "] (by decide) (by decide)

/-- C10: every `Number` token produced by `lex` has text beginning with an
ASCII digit (never with a period): the symbol tokenizer is tried before the
number tokenizer in the dispatch chain and `.` is in the symbol table, so a
leading `.` becomes a `Period` token; concretely, `.5` lexes to
`[Period, Number "5"]`. -/
theorem c10_number_tokens_start_with_digit :
    (∀ (gs : List String) (txt : String),
      Token.Number txt ∈ lex gs → starts_with_digit txt = true) ∧
    lex (graphemes ".5") = [Token.Period, Token.Number "5"] := by
  refine ⟨?_, by rfl⟩
  intro gs txt hm
  exact lex_loop_numbers gs none [] (fun text h => by simp at h)
    (fun t h => by simp at h) txt hm

/-- C10 witness: the invariant applied to the `Number "5"` token of the
lexing of `.5`. -/
theorem c10_number_tokens_witness : starts_with_digit "5" = true :=
  c10_number_tokens_start_with_digit.1 (graphemes ".5") "5" (by decide)
